import Mathlib

/-!
Verification development for the insider-tracking database tool layer.

The tool layer builds SQL `WHERE` clauses from optional filters, binds
parameters positionally, paginates with a paired count query, computes a few
derived percentage metrics, and wraps results in uniform envelopes.  The
definitions below are shallow embeddings of the Python source files
(`insider_transactions.py`, `llm_calls.py`, `market_context.py`,
`analytics.py`, `db.py`):

* SQL execution against the relational store is modelled by list filtering,
  sorting, and aggregation over explicit row types, mirroring the fixed query
  shapes in the source;
* wall-clock timestamps that the source echoes into every envelope are
  omitted, and the cutoff date the source computes from `datetime.now()`
  is passed in as an explicit `start_date` argument;
* logging is omitted; raised exceptions become `Except.error` values whose
  messages follow the source's message-wrapping.
-/

/-- Python truthiness of an `Optional[str]`: present and non-empty. -/
def strPresent : Option String → Bool
  | none => false
  | some s => !(s == "")

/-- The payload of a present optional string (only used under `strPresent`). -/
def strVal (o : Option String) : String :=
  o.getD ""

/-- Python `str.upper()` (ASCII payloads). -/
def pyUpper (s : String) : String :=
  ⟨s.data.map Char.toUpper⟩

/-- Lexicographic comparison on character lists. -/
def charListLE : List Char → List Char → Bool
  | [], _ => true
  | _ :: _, [] => false
  | a :: as, b :: bs => if a = b then charListLE as bs else decide (a < b)

/-- Lexicographic `≤` on strings; for ISO `YYYY-MM-DD` dates and ISO
timestamps this coincides with chronological order, which is how the store
compares the date-typed columns against the string parameters it is given. -/
def strLE (s t : String) : Bool :=
  charListLE s.data t.data

/-- Number of `%s` placeholders in a character list (non-overlapping,
left to right). -/
def countPS : List Char → Nat
  | '%' :: 's' :: rest => countPS rest + 1
  | _ :: rest => countPS rest
  | [] => 0

/-- Number of positional `%s` placeholders in a query fragment. -/
def countPlaceholders (s : String) : Nat :=
  countPS s.data

/-- `" AND ".join(conditions)` from the source. -/
def andJoin : List String → String
  | [] => ""
  | [c] => c
  | c :: c' :: cs => c ++ " AND " ++ andJoin (c' :: cs)

/-- Concatenation of a list of lists (used to relate a parameter sequence to
the per-condition parameter contributions). -/
def joinL : List (List α) → List α
  | [] => []
  | l :: ls => l ++ joinL ls

/-- A value bound to one positional placeholder by the database driver. -/
inductive SqlParam where
  | s (v : String)
  | b (v : Bool)
  | i (v : Int)
deriving DecidableEq, Repr

/-- Stable insertion keeping `le`-smaller elements first. -/
def insertLe (le : α → α → Bool) (a : α) : List α → List α
  | [] => [a]
  | b :: bs => if le a b then a :: b :: bs else b :: insertLe le a bs

/-- Stable insertion sort; models the deterministic `ORDER BY` of the fixed
queries in the source. -/
def sortBy (le : α → α → Bool) : List α → List α
  | [] => []
  | a :: as => insertLe le a (sortBy le as)

/-- SQL `LIKE`/`ILIKE` pattern matching, case-insensitive (`%` matches any
sequence, `_` any single character). -/
def likeMatch : List Char → List Char → Bool
  | [], [] => true
  | [], _ :: _ => false
  | '%' :: ps, [] => likeMatch ps []
  | '%' :: ps, c :: s => likeMatch ps (c :: s) || likeMatch ('%' :: ps) s
  | '_' :: ps, _ :: s => likeMatch ps s
  | p :: ps, c :: s => (p.toLower == c.toLower) && likeMatch ps s
  | _ :: _, [] => false
termination_by p s => (p.length, s.length)

/-- `column ILIKE pattern` on a row value. -/
def ilike (value pattern : String) : Bool :=
  likeMatch pattern.data value.data

/-- Python `str.isdigit()`: non-empty and all characters are digits. -/
def pyIsDigit (s : String) : Bool :=
  !(s == "") && s.data.all Char.isDigit

/-- Python `int(s)` for a digit string. -/
def digitsToNat (s : String) : Nat :=
  s.data.foldl (fun n c => n * 10 + (c.toNat - 48)) 0

/-- Whether `needle` occurs at the start of `hay`. -/
def listStartsWith : List Char → List Char → Bool
  | _, [] => true
  | [], _ :: _ => false
  | a :: as, b :: bs => a == b && listStartsWith as bs

/-- Whether `needle` occurs contiguously anywhere in `hay`. -/
def listHasInfix (needle : List Char) : List Char → Bool
  | [] => needle.isEmpty
  | a :: rest => listStartsWith (a :: rest) needle || listHasInfix needle rest

/-- Python `needle in hay` substring test. -/
def strContains (hay needle : String) : Bool :=
  listHasInfix needle.data hay.data

/-- Python `round(x, 2)` on an exact rational: round to two decimal places.
(`round` here rounds half away from zero-ward ties upward; Python's
float-based rounding agrees except at exact representable ties, which no
value in this development hits.) -/
def pyRound2 (q : ℚ) : ℚ :=
  ((round (q * 100) : ℤ) : ℚ) / 100

/-- Python `x or 0` applied to a nullable count fetched from an aggregate
row (`result.get(key, 0) or 0` in the source). -/
def orZero : Option Nat → Nat
  | none => 0
  | some n => n

/-- SQL `SUM` over the non-null values of a column: `NULL` when no non-null
value contributes. -/
def sqlSum (l : List ℚ) : Option ℚ :=
  if l.isEmpty then none else some (l.foldr (· + ·) 0)

/-- SQL `AVG` over the non-null values of a column. -/
def sqlAvg (l : List ℚ) : Option ℚ :=
  if l.isEmpty then none else some ((l.foldr (· + ·) 0) / l.length)

/-! ## Row types (schemas owned by the external store) -/

/-- A row of the `insider_transactions` table. -/
structure TxRow where
  id : Int := 0
  transaction_id : Option String := none
  ticker : String := ""
  insider_name : String := ""
  transaction_date : Option String := none
  filing_date : Option String := none
  shares : Option ℚ := none
  transaction_value : Option ℚ := none
  signal_generated : Bool := false
  signal_quality : Option String := none
  signal_score : Option ℚ := none
  final_signal_score : Option ℚ := none
  auto_rejected : Bool := false
  alert_sent : Bool := false
deriving DecidableEq, Repr

/-- A row of the `llm_calls` table. -/
structure CallRow where
  id : Int := 0
  ticker : String := ""
  company_name : String := ""
  recommendation : Option String := none
  status : Option String := none
  is_closed : Bool := false
  entry_date : Option String := none
  call_date : Option String := none
  price_change_pct : Option ℚ := none
  pnl_dollars : Option ℚ := none
  holding_days : Option ℚ := none
  batch_id : Option String := none
deriving DecidableEq, Repr

/-- A JSON document stored in one of the semi-structured `market_context`
columns. -/
inductive Json where
  | null
  | bool (b : Bool)
  | num (n : Int)
  | str (s : String)
  | arr (items : List Json)
  | obj (fields : List (String × Json))

/-- A row of the `market_context` table (`none` in a document column is SQL
`NULL`, surfacing as Python `None`). -/
structure MCRow where
  id : Int := 0
  timestamp : String := ""
  sector_activity : Option Json := none
  ceo_cfo_buys : Option Json := none
  large_transactions : Option Json := none
  notable_patterns : Option Json := none

/-- Escape one character as Python `json.dumps` does (ASCII payloads). -/
def jsonEscChar (c : Char) : String :=
  if c = '"' then "\\\""
  else if c = '\\' then "\\\\"
  else if c = '\n' then "\\n"
  else if c = '\t' then "\\t"
  else if c = '\r' then "\\r"
  else String.singleton c

/-- Serialize a JSON string body. -/
def jsonEscape (s : String) : String :=
  s.data.foldr (fun c acc => jsonEscChar c ++ acc) ""

mutual

/-- Python `json.dumps` with its default separators `", "` and `": "`. -/
def jsonDumps : Json → String
  | .null => "null"
  | .bool true => "true"
  | .bool false => "false"
  | .num n => toString n
  | .str s => "\"" ++ jsonEscape s ++ "\""
  | .arr items => "[" ++ jsonDumpsList items ++ "]"
  | .obj fields => "\x7b" ++ jsonDumpsFields fields ++ "\x7d"

/-- Comma-separated serialization of array items. -/
def jsonDumpsList : List Json → String
  | [] => ""
  | [j] => jsonDumps j
  | j :: j' :: js => jsonDumps j ++ ", " ++ jsonDumpsList (j' :: js)

/-- Comma-separated serialization of object fields. -/
def jsonDumpsFields : List (String × Json) → String
  | [] => ""
  | [(k, v)] => "\"" ++ jsonEscape k ++ "\": " ++ jsonDumps v
  | (k, v) :: f :: fs =>
      "\"" ++ jsonEscape k ++ "\": " ++ jsonDumps v ++ ", " ++ jsonDumpsFields (f :: fs)

end

/-- Python truthiness of a parsed JSON value (`None`, `False`, `0`, `""`,
`[]`, `{}` are falsy). -/
def jsonTruthy : Json → Bool
  | .null => false
  | .bool b => b
  | .num n => !(n == 0)
  | .str s => !(s == "")
  | .arr items => !items.isEmpty
  | .obj fields => !fields.isEmpty

/-! ## `insider_transactions.py`: `get_insider_transactions` -/

/-- Arguments of `get_insider_transactions`. -/
structure ITArgs where
  ticker : Option String := none
  insider_name : Option String := none
  start_date : Option String := none
  end_date : Option String := none
  signal_generated : Option Bool := none
  signal_quality : Option String := none
  alert_sent : Option Bool := none
  limit : Int := 100
  offset : Int := 0
deriving DecidableEq, Repr

/-- `if limit < 1 or limit > 1000: limit = 100` in `get_insider_transactions`. -/
def itEffLimit (limit : Int) : Int :=
  if limit < 1 ∨ 1000 < limit then 100 else limit

/-- The `conditions` list built by `get_insider_transactions`, in source
order. -/
def itConditions (a : ITArgs) : List String :=
  (bif strPresent a.ticker then ["ticker = %s"] else [])
    ++ (bif strPresent a.insider_name then ["insider_name ILIKE %s"] else [])
    ++ (bif strPresent a.start_date then ["transaction_date >= %s"] else [])
    ++ (bif strPresent a.end_date then ["transaction_date <= %s"] else [])
    ++ (bif a.signal_generated.isSome then ["signal_generated = %s"] else [])
    ++ (bif strPresent a.signal_quality then ["signal_quality = %s"] else [])
    ++ (bif a.alert_sent.isSome then ["alert_sent = %s"] else [])

/-- The `params` list built alongside `itConditions`, in source order
(before `limit`/`offset` are appended). -/
def itParams (a : ITArgs) : List SqlParam :=
  (bif strPresent a.ticker then [SqlParam.s (pyUpper (strVal a.ticker))] else [])
    ++ (bif strPresent a.insider_name then
          [SqlParam.s ("%" ++ strVal a.insider_name ++ "%")] else [])
    ++ (bif strPresent a.start_date then [SqlParam.s (strVal a.start_date)] else [])
    ++ (bif strPresent a.end_date then [SqlParam.s (strVal a.end_date)] else [])
    ++ (bif a.signal_generated.isSome then
          [SqlParam.b (a.signal_generated.getD false)] else [])
    ++ (bif strPresent a.signal_quality then
          [SqlParam.s (strVal a.signal_quality)] else [])
    ++ (bif a.alert_sent.isSome then [SqlParam.b (a.alert_sent.getD false)] else [])

/-- Each present filter of `get_insider_transactions` paired with the
parameters it contributes, in source order (specification device used to
state placeholder/parameter alignment). -/
def itPairs (a : ITArgs) : List (String × List SqlParam) :=
  (bif strPresent a.ticker then
    [("ticker = %s", [SqlParam.s (pyUpper (strVal a.ticker))])] else [])
    ++ (bif strPresent a.insider_name then
          [("insider_name ILIKE %s",
            [SqlParam.s ("%" ++ strVal a.insider_name ++ "%")])] else [])
    ++ (bif strPresent a.start_date then
          [("transaction_date >= %s", [SqlParam.s (strVal a.start_date)])] else [])
    ++ (bif strPresent a.end_date then
          [("transaction_date <= %s", [SqlParam.s (strVal a.end_date)])] else [])
    ++ (bif a.signal_generated.isSome then
          [("signal_generated = %s",
            [SqlParam.b (a.signal_generated.getD false)])] else [])
    ++ (bif strPresent a.signal_quality then
          [("signal_quality = %s", [SqlParam.s (strVal a.signal_quality)])] else [])
    ++ (bif a.alert_sent.isSome then
          [("alert_sent = %s", [SqlParam.b (a.alert_sent.getD false)])] else [])

/-- `" AND ".join(conditions) if conditions else "1=1"`. -/
def itWhere (a : ITArgs) : String :=
  if itConditions a = [] then "1=1" else andJoin (itConditions a)

/-- The full parameter tuple of the primary query: filter params with
`limit` and `offset` appended. -/
def itFullParams (a : ITArgs) : List SqlParam :=
  itParams a ++ [SqlParam.i (itEffLimit a.limit), SqlParam.i a.offset]

/-- `tuple(params[:-2])`: the parameters handed to the count query. -/
def itCountParams (a : ITArgs) : List SqlParam :=
  (itFullParams a).dropLast.dropLast

/-- Row-level meaning of a comparison `column >= value` on a nullable date
column (`NULL` compares to nothing). -/
def optDateGe (column : Option String) (value : String) : Bool :=
  match column with
  | some d => strLE value d
  | none => false

/-- Row-level meaning of `column <= value` on a nullable date column. -/
def optDateLe (column : Option String) (value : String) : Bool :=
  match column with
  | some d => strLE d value
  | none => false

/-- Row-level meaning of the conjunctive `WHERE` clause built by
`get_insider_transactions` (conditions in source order; an absent filter
contributes no conjunct). -/
def txMatches (a : ITArgs) (r : TxRow) : Bool :=
  (!strPresent a.ticker || (r.ticker == pyUpper (strVal a.ticker)))
    && (!strPresent a.insider_name
          || ilike r.insider_name ("%" ++ strVal a.insider_name ++ "%"))
    && (!strPresent a.start_date || optDateGe r.transaction_date (strVal a.start_date))
    && (!strPresent a.end_date || optDateLe r.transaction_date (strVal a.end_date))
    && (!a.signal_generated.isSome
          || (r.signal_generated == a.signal_generated.getD false))
    && (!strPresent a.signal_quality
          || (r.signal_quality == some (strVal a.signal_quality)))
    && (!a.alert_sent.isSome || (r.alert_sent == a.alert_sent.getD false))

/-- `a` strictly precedes `b` under `DESC NULLS LAST`. -/
def optDescNullsLastLT (a b : Option String) : Bool :=
  match a, b with
  | some x, some y => strLE y x && !(x == y)
  | some _, none => true
  | none, _ => false

/-- `a` strictly precedes `b` under `DESC` (Postgres default `NULLS FIRST`). -/
def optDescNullsFirstLT (a b : Option String) : Bool :=
  match a, b with
  | some x, some y => strLE y x && !(x == y)
  | none, some _ => true
  | _, _ => false

/-- `ORDER BY transaction_date DESC NULLS LAST, filing_date DESC`. -/
def txOrderLE (r1 r2 : TxRow) : Bool :=
  optDescNullsLastLT r1.transaction_date r2.transaction_date
    || ((r1.transaction_date == r2.transaction_date)
          && (optDescNullsFirstLT r1.filing_date r2.filing_date
                || (r1.filing_date == r2.filing_date)))

/-- Response envelope of `get_insider_transactions` (wall-clock `timestamp`
field omitted). -/
structure ITResult where
  transactions : List TxRow
  count : Nat
  total : Nat
  limit : Int
  offset : Int
  status : String
deriving DecidableEq, Repr

/-- `get_insider_transactions`: clamp the limit, build the filtered query and
the paired count query (count params are `params[:-2]`), execute both, and
wrap the rows.  The store rejects a negative `OFFSET`, which surfaces as the
tool's wrapped error. -/
def get_insider_transactions (db : List TxRow) (a : ITArgs) : Except String ITResult :=
  let limit := itEffLimit a.limit
  if a.offset < 0 then
    Except.error ("Failed to retrieve insider transactions: OFFSET must not be negative")
  else
    let matched := db.filter (txMatches a)
    let results := ((sortBy txOrderLE matched).drop a.offset.toNat).take limit.toNat
    let total := (db.filter (txMatches a)).length
    Except.ok
      { transactions := results
        count := results.length
        total := total
        limit := limit
        offset := a.offset
        status := "success" }

/-! ## `llm_calls.py`: `get_llm_calls` -/

/-- Arguments of `get_llm_calls`. -/
structure LLMArgs where
  ticker : Option String := none
  status : Option String := none
  recommendation : Option String := none
  is_closed : Option Bool := none
  start_date : Option String := none
  end_date : Option String := none
  limit : Int := 100
  offset : Int := 0
deriving DecidableEq, Repr

/-- `if limit < 1 or limit > 1000: limit = 100` in `get_llm_calls`. -/
def llmEffLimit (limit : Int) : Int :=
  if limit < 1 ∨ 1000 < limit then 100 else limit

/-- The `conditions` list built by `get_llm_calls`, in source order. -/
def llmConditions (a : LLMArgs) : List String :=
  (bif strPresent a.ticker then ["ticker = %s"] else [])
    ++ (bif strPresent a.status then ["status = %s"] else [])
    ++ (bif strPresent a.recommendation then ["recommendation = %s"] else [])
    ++ (bif a.is_closed.isSome then ["is_closed = %s"] else [])
    ++ (bif strPresent a.start_date then ["entry_date >= %s"] else [])
    ++ (bif strPresent a.end_date then ["entry_date <= %s"] else [])

/-- The `params` list built alongside `llmConditions`, in source order
(before `limit`/`offset` are appended). -/
def llmParams (a : LLMArgs) : List SqlParam :=
  (bif strPresent a.ticker then [SqlParam.s (pyUpper (strVal a.ticker))] else [])
    ++ (bif strPresent a.status then [SqlParam.s (pyUpper (strVal a.status))] else [])
    ++ (bif strPresent a.recommendation then
          [SqlParam.s (pyUpper (strVal a.recommendation))] else [])
    ++ (bif a.is_closed.isSome then [SqlParam.b (a.is_closed.getD false)] else [])
    ++ (bif strPresent a.start_date then [SqlParam.s (strVal a.start_date)] else [])
    ++ (bif strPresent a.end_date then [SqlParam.s (strVal a.end_date)] else [])

/-- Present filters of `get_llm_calls` paired with their parameters. -/
def llmPairs (a : LLMArgs) : List (String × List SqlParam) :=
  (bif strPresent a.ticker then
    [("ticker = %s", [SqlParam.s (pyUpper (strVal a.ticker))])] else [])
    ++ (bif strPresent a.status then
          [("status = %s", [SqlParam.s (pyUpper (strVal a.status))])] else [])
    ++ (bif strPresent a.recommendation then
          [("recommendation = %s", [SqlParam.s (pyUpper (strVal a.recommendation))])]
        else [])
    ++ (bif a.is_closed.isSome then
          [("is_closed = %s", [SqlParam.b (a.is_closed.getD false)])] else [])
    ++ (bif strPresent a.start_date then
          [("entry_date >= %s", [SqlParam.s (strVal a.start_date)])] else [])
    ++ (bif strPresent a.end_date then
          [("entry_date <= %s", [SqlParam.s (strVal a.end_date)])] else [])

/-- `" AND ".join(conditions) if conditions else "1=1"` for `get_llm_calls`. -/
def llmWhere (a : LLMArgs) : String :=
  if llmConditions a = [] then "1=1" else andJoin (llmConditions a)

/-- Primary-query parameters of `get_llm_calls`: filter params plus
`limit`/`offset`. -/
def llmFullParams (a : LLMArgs) : List SqlParam :=
  llmParams a ++ [SqlParam.i (llmEffLimit a.limit), SqlParam.i a.offset]

/-- `tuple(params[:-2])`: the parameters handed to the count query of
`get_llm_calls`. -/
def llmCountParams (a : LLMArgs) : List SqlParam :=
  (llmFullParams a).dropLast.dropLast

/-- Row-level meaning of the conjunctive `WHERE` clause of `get_llm_calls`. -/
def callMatches (a : LLMArgs) (r : CallRow) : Bool :=
  (!strPresent a.ticker || (r.ticker == pyUpper (strVal a.ticker)))
    && (!strPresent a.status || (r.status == some (pyUpper (strVal a.status))))
    && (!strPresent a.recommendation
          || (r.recommendation == some (pyUpper (strVal a.recommendation))))
    && (!a.is_closed.isSome || (r.is_closed == a.is_closed.getD false))
    && (!strPresent a.start_date || optDateGe r.entry_date (strVal a.start_date))
    && (!strPresent a.end_date || optDateLe r.entry_date (strVal a.end_date))

/-- `ORDER BY entry_date DESC, call_date DESC`. -/
def callOrderLE (r1 r2 : CallRow) : Bool :=
  optDescNullsFirstLT r1.entry_date r2.entry_date
    || ((r1.entry_date == r2.entry_date)
          && (optDescNullsFirstLT r1.call_date r2.call_date
                || (r1.call_date == r2.call_date)))

/-- Response envelope of `get_llm_calls` (wall-clock `timestamp` omitted). -/
structure LLMResult where
  calls : List CallRow
  count : Nat
  total : Nat
  limit : Int
  offset : Int
  status : String
deriving DecidableEq, Repr

/-- `get_llm_calls`: same pagination pattern as `get_insider_transactions`
over the `llm_calls` table. -/
def get_llm_calls (db : List CallRow) (a : LLMArgs) : Except String LLMResult :=
  let limit := llmEffLimit a.limit
  if a.offset < 0 then
    Except.error ("Failed to retrieve LLM calls: OFFSET must not be negative")
  else
    let matched := db.filter (callMatches a)
    let results := ((sortBy callOrderLE matched).drop a.offset.toNat).take limit.toNat
    let total := (db.filter (callMatches a)).length
    Except.ok
      { calls := results
        count := results.length
        total := total
        limit := limit
        offset := a.offset
        status := "success" }

/-! ## `insider_transactions.py`: `get_recent_signals`, `get_unprocessed_transactions`, `get_insider_stats` -/

/-- `if limit < 1 or limit > 500: limit = 50` in `get_recent_signals`. -/
def rsEffLimit (limit : Int) : Int :=
  if limit < 1 ∨ 500 < limit then 50 else limit

/-- The `conditions` list of `get_recent_signals`: seeded with the fixed
`signal_generated = TRUE` predicate, then the filing-date window, then the
optional quality filter. -/
def rsConditions (signal_quality : Option String) : List String :=
  ["signal_generated = TRUE", "filing_date >= %s"]
    ++ (bif strPresent signal_quality then ["signal_quality = %s"] else [])

/-- The `params` list of `get_recent_signals` built alongside the `WHERE`
clause (before `limit` is appended). -/
def rsParams (start_date : String) (signal_quality : Option String) : List SqlParam :=
  [SqlParam.s start_date]
    ++ (bif strPresent signal_quality then [SqlParam.s (strVal signal_quality)] else [])

/-- Conditions of `get_recent_signals` paired with their parameters (the
seeded predicate binds none). -/
def rsPairs (start_date : String) (signal_quality : Option String) :
    List (String × List SqlParam) :=
  [("signal_generated = TRUE", []), ("filing_date >= %s", [SqlParam.s start_date])]
    ++ (bif strPresent signal_quality then
          [("signal_quality = %s", [SqlParam.s (strVal signal_quality)])] else [])

/-- `" AND ".join(conditions)` for `get_recent_signals` (never empty). -/
def rsWhere (signal_quality : Option String) : String :=
  andJoin (rsConditions signal_quality)

/-- `if limit < 1 or limit > 1000: limit = 100` in `get_unprocessed_transactions`. -/
def unprocEffLimit (limit : Int) : Int :=
  if limit < 1 ∨ 1000 < limit then 100 else limit

/-- The `conditions` list of `get_insider_stats`: the date window then the
optional ticker and insider-name filters. -/
def statsConditions (ticker insider_name : Option String) : List String :=
  ["transaction_date >= %s"]
    ++ (bif strPresent ticker then ["ticker = %s"] else [])
    ++ (bif strPresent insider_name then ["insider_name ILIKE %s"] else [])

/-- The `params` list of `get_insider_stats`. -/
def statsParams (start_date : String) (ticker insider_name : Option String) :
    List SqlParam :=
  [SqlParam.s start_date]
    ++ (bif strPresent ticker then [SqlParam.s (pyUpper (strVal ticker))] else [])
    ++ (bif strPresent insider_name then
          [SqlParam.s ("%" ++ strVal insider_name ++ "%")] else [])

/-- Conditions of `get_insider_stats` paired with their parameters. -/
def statsPairs (start_date : String) (ticker insider_name : Option String) :
    List (String × List SqlParam) :=
  [("transaction_date >= %s", [SqlParam.s start_date])]
    ++ (bif strPresent ticker then
          [("ticker = %s", [SqlParam.s (pyUpper (strVal ticker))])] else [])
    ++ (bif strPresent insider_name then
          [("insider_name ILIKE %s",
            [SqlParam.s ("%" ++ strVal insider_name ++ "%")])] else [])

/-- `" AND ".join(conditions)` for `get_insider_stats` (never empty). -/
def statsWhere (ticker insider_name : Option String) : String :=
  andJoin (statsConditions ticker insider_name)

/-! ## `llm_calls.py`: `get_open_calls`, `get_call_performance` -/

/-- `if limit < 1 or limit > 1000: limit = 100` in `get_open_calls`. -/
def openCallsEffLimit (limit : Int) : Int :=
  if limit < 1 ∨ 1000 < limit then 100 else limit

/-- The `conditions` list of `get_call_performance`: the entry-date window
then the optional ticker and recommendation filters. -/
def perfConditions (ticker recommendation : Option String) : List String :=
  ["entry_date >= %s"]
    ++ (bif strPresent ticker then ["ticker = %s"] else [])
    ++ (bif strPresent recommendation then ["recommendation = %s"] else [])

/-- The `params` list of `get_call_performance`. -/
def perfParams (start_date : String) (ticker recommendation : Option String) :
    List SqlParam :=
  [SqlParam.s start_date]
    ++ (bif strPresent ticker then [SqlParam.s (pyUpper (strVal ticker))] else [])
    ++ (bif strPresent recommendation then
          [SqlParam.s (pyUpper (strVal recommendation))] else [])

/-- Conditions of `get_call_performance` paired with their parameters. -/
def perfPairs (start_date : String) (ticker recommendation : Option String) :
    List (String × List SqlParam) :=
  [("entry_date >= %s", [SqlParam.s start_date])]
    ++ (bif strPresent ticker then
          [("ticker = %s", [SqlParam.s (pyUpper (strVal ticker))])] else [])
    ++ (bif strPresent recommendation then
          [("recommendation = %s", [SqlParam.s (pyUpper (strVal recommendation))])]
        else [])

/-- `" AND ".join(conditions)` for `get_call_performance` (never empty). -/
def perfWhere (ticker recommendation : Option String) : String :=
  andJoin (perfConditions ticker recommendation)

/-! ## `market_context.py`: `get_market_context` -/

/-- Arguments of `get_market_context`. -/
structure MCArgs where
  start_timestamp : Option String := none
  end_timestamp : Option String := none
  batch_id : Option String := none
  limit : Int := 50

/-- `if limit < 1 or limit > 500: limit = 50` in `get_market_context`. -/
def mcEffLimit (limit : Int) : Int :=
  if limit < 1 ∨ 500 < limit then 50 else limit

/-- The `conditions` list built by `get_market_context`. -/
def mcConditions (a : MCArgs) : List String :=
  (bif strPresent a.start_timestamp then ["timestamp >= %s"] else [])
    ++ (bif strPresent a.end_timestamp then ["timestamp <= %s"] else [])

/-- The `params` list built alongside `mcConditions` (before `limit` is
appended). -/
def mcParams (a : MCArgs) : List SqlParam :=
  (bif strPresent a.start_timestamp then [SqlParam.s (strVal a.start_timestamp)] else [])
    ++ (bif strPresent a.end_timestamp then [SqlParam.s (strVal a.end_timestamp)] else [])

/-- Present filters of `get_market_context` paired with their parameters. -/
def mcPairs (a : MCArgs) : List (String × List SqlParam) :=
  (bif strPresent a.start_timestamp then
    [("timestamp >= %s", [SqlParam.s (strVal a.start_timestamp)])] else [])
    ++ (bif strPresent a.end_timestamp then
          [("timestamp <= %s", [SqlParam.s (strVal a.end_timestamp)])] else [])

/-- `" AND ".join(conditions) if conditions else "1=1"` for
`get_market_context`. -/
def mcWhere (a : MCArgs) : String :=
  if mcConditions a = [] then "1=1" else andJoin (mcConditions a)

/-! ## `analytics.py`: `get_top_performers` limit clamp -/

/-- `if limit < 1 or limit > 50: limit = 10` in `get_top_performers`. -/
def tpEffLimit (limit : Int) : Int :=
  if limit < 1 ∨ 50 < limit then 10 else limit

/-! ## Placeholder/parameter alignment lemmas (one per list tool) -/

set_option maxHeartbeats 3200000 in
/-- `get_insider_transactions`: for every subset of present filters, the
`WHERE` clause has exactly as many `%s` placeholders as filter parameters,
the conditions and parameters are the componentwise projections of the
ordered filter pairs, and each condition carries exactly as many
placeholders as the parameters appended alongside it. -/
theorem itAlign (a : ITArgs) :
    countPlaceholders (itWhere a) = (itParams a).length
      ∧ itConditions a = (itPairs a).map Prod.fst
      ∧ itParams a = joinL ((itPairs a).map Prod.snd)
      ∧ ((itPairs a).all fun p => countPlaceholders p.1 == p.2.length) = true := by
  simp only [itWhere, itConditions, itParams, itPairs]
  generalize strPresent a.ticker = g1
  generalize strPresent a.insider_name = g2
  generalize strPresent a.start_date = g3
  generalize strPresent a.end_date = g4
  generalize a.signal_generated.isSome = g5
  generalize strPresent a.signal_quality = g6
  generalize a.alert_sent.isSome = g7
  cases g1 <;> cases g2 <;> cases g3 <;> cases g4 <;> cases g5 <;> cases g6 <;>
    cases g7 <;> exact ⟨rfl, rfl, rfl, rfl⟩

set_option maxHeartbeats 1600000 in
/-- `get_llm_calls`: placeholder/parameter alignment for every subset of
present filters. -/
theorem llmAlign (a : LLMArgs) :
    countPlaceholders (llmWhere a) = (llmParams a).length
      ∧ llmConditions a = (llmPairs a).map Prod.fst
      ∧ llmParams a = joinL ((llmPairs a).map Prod.snd)
      ∧ ((llmPairs a).all fun p => countPlaceholders p.1 == p.2.length) = true := by
  simp only [llmWhere, llmConditions, llmParams, llmPairs]
  generalize strPresent a.ticker = g1
  generalize strPresent a.status = g2
  generalize strPresent a.recommendation = g3
  generalize a.is_closed.isSome = g4
  generalize strPresent a.start_date = g5
  generalize strPresent a.end_date = g6
  cases g1 <;> cases g2 <;> cases g3 <;> cases g4 <;> cases g5 <;> cases g6 <;>
    exact ⟨rfl, rfl, rfl, rfl⟩

/-- `get_recent_signals`: placeholder/parameter alignment. -/
theorem rsAlign (start_date : String) (signal_quality : Option String) :
    countPlaceholders (rsWhere signal_quality)
        = (rsParams start_date signal_quality).length
      ∧ rsConditions signal_quality
          = (rsPairs start_date signal_quality).map Prod.fst
      ∧ rsParams start_date signal_quality
          = joinL ((rsPairs start_date signal_quality).map Prod.snd)
      ∧ ((rsPairs start_date signal_quality).all
            fun p => countPlaceholders p.1 == p.2.length) = true := by
  simp only [rsWhere, rsConditions, rsParams, rsPairs]
  generalize strPresent signal_quality = g1
  cases g1 <;> exact ⟨rfl, rfl, rfl, rfl⟩

/-- `get_insider_stats`: placeholder/parameter alignment. -/
theorem statsAlign (start_date : String) (ticker insider_name : Option String) :
    countPlaceholders (statsWhere ticker insider_name)
        = (statsParams start_date ticker insider_name).length
      ∧ statsConditions ticker insider_name
          = (statsPairs start_date ticker insider_name).map Prod.fst
      ∧ statsParams start_date ticker insider_name
          = joinL ((statsPairs start_date ticker insider_name).map Prod.snd)
      ∧ ((statsPairs start_date ticker insider_name).all
            fun p => countPlaceholders p.1 == p.2.length) = true := by
  simp only [statsWhere, statsConditions, statsParams, statsPairs]
  generalize strPresent ticker = g1
  generalize strPresent insider_name = g2
  cases g1 <;> cases g2 <;> exact ⟨rfl, rfl, rfl, rfl⟩

/-- `get_call_performance`: placeholder/parameter alignment. -/
theorem perfAlign (start_date : String) (ticker recommendation : Option String) :
    countPlaceholders (perfWhere ticker recommendation)
        = (perfParams start_date ticker recommendation).length
      ∧ perfConditions ticker recommendation
          = (perfPairs start_date ticker recommendation).map Prod.fst
      ∧ perfParams start_date ticker recommendation
          = joinL ((perfPairs start_date ticker recommendation).map Prod.snd)
      ∧ ((perfPairs start_date ticker recommendation).all
            fun p => countPlaceholders p.1 == p.2.length) = true := by
  simp only [perfWhere, perfConditions, perfParams, perfPairs]
  generalize strPresent ticker = g1
  generalize strPresent recommendation = g2
  cases g1 <;> cases g2 <;> exact ⟨rfl, rfl, rfl, rfl⟩

/-- `get_market_context`: placeholder/parameter alignment. -/
theorem mcAlign (a : MCArgs) :
    countPlaceholders (mcWhere a) = (mcParams a).length
      ∧ mcConditions a = (mcPairs a).map Prod.fst
      ∧ mcParams a = joinL ((mcPairs a).map Prod.snd)
      ∧ ((mcPairs a).all fun p => countPlaceholders p.1 == p.2.length) = true := by
  simp only [mcWhere, mcConditions, mcParams, mcPairs]
  generalize strPresent a.start_timestamp = g1
  generalize strPresent a.end_timestamp = g2
  cases g1 <;> cases g2 <;> exact ⟨rfl, rfl, rfl, rfl⟩

/-! ## `llm_calls.py`: `get_call_by_id`, `get_call_performance` -/

/-- Success envelope of `get_call_by_id`. -/
structure CallEnv where
  call : CallRow
  status : String
deriving DecidableEq, Repr

/-- `get_call_by_id`: `fetch_one` on `WHERE id = %s`; a missing row raises,
and the handler wraps the message. -/
def get_call_by_id (db : List CallRow) (call_id : Int) : Except String CallEnv :=
  match db.find? (fun r => r.id == call_id) with
  | some r => Except.ok { call := r, status := "success" }
  | none =>
      Except.error ("Failed to retrieve call: Call not found: " ++ toString call_id)

/-- Row-level meaning of the `WHERE` clause of `get_call_performance`. -/
def perfMatches (start_date : String) (ticker recommendation : Option String)
    (r : CallRow) : Bool :=
  optDateGe r.entry_date start_date
    && (!strPresent ticker || (r.ticker == pyUpper (strVal ticker)))
    && (!strPresent recommendation
          || (r.recommendation == some (pyUpper (strVal recommendation))))

/-- `win_rate = (winning_count / closed_count * 100) if closed_count > 0
else 0` in `get_call_performance`. -/
def callWinRate (closed_count winning_count : Nat) : ℚ :=
  if 0 < closed_count then (winning_count : ℚ) / closed_count * 100 else 0

/-- The aggregate row fetched by `get_call_performance`, with the
`win_rate_pct` key the tool adds afterwards. -/
structure PerfAgg where
  total_calls : Nat
  closed_calls : Nat
  open_calls : Nat
  avg_price_change_pct : Option ℚ
  total_pnl : Option ℚ
  avg_pnl : Option ℚ
  avg_holding_days : Option ℚ
  winning_calls : Nat
  losing_calls : Nat
  pending_calls : Nat
  win_rate_pct : ℚ
deriving DecidableEq, Repr

/-- Response envelope of `get_call_performance` (echoed `filters` flattened
into two fields; wall-clock `timestamp` omitted). -/
structure PerfResult where
  performance : PerfAgg
  days : Int
  filter_ticker : Option String
  filter_recommendation : Option String
  status : String
deriving DecidableEq, Repr

/-- `get_call_performance`: one aggregate query over the filtered window,
followed by the win-rate computation (`start_date` is the cutoff the source
computes as `datetime.now() - timedelta(days)`). -/
def get_call_performance (db : List CallRow) (days : Int) (start_date : String)
    (ticker recommendation : Option String) : PerfResult :=
  let matched := db.filter (perfMatches start_date ticker recommendation)
  let closed_count := (matched.filter (fun r => r.is_closed)).length
  let winning_count :=
    (matched.filter (fun r =>
      match r.pnl_dollars with
      | some v => decide (0 < v)
      | none => false)).length
  { performance :=
      { total_calls := matched.length
        closed_calls := closed_count
        open_calls := (matched.filter (fun r => !r.is_closed)).length
        avg_price_change_pct := sqlAvg (matched.filterMap (fun r => r.price_change_pct))
        total_pnl := sqlSum (matched.filterMap (fun r => r.pnl_dollars))
        avg_pnl := sqlAvg (matched.filterMap (fun r => r.pnl_dollars))
        avg_holding_days := sqlAvg (matched.filterMap (fun r => r.holding_days))
        winning_calls := winning_count
        losing_calls :=
          (matched.filter (fun r =>
            match r.pnl_dollars with
            | some v => decide (v < 0)
            | none => false)).length
        pending_calls := (matched.filter (fun r => r.pnl_dollars.isNone)).length
        win_rate_pct := pyRound2 (callWinRate closed_count winning_count) }
    days := days
    filter_ticker := ticker
    filter_recommendation := recommendation
    status := "success" }

/-! ## `insider_transactions.py`: `get_transaction_by_id` -/

/-- Success envelope of `get_transaction_by_id`. -/
structure TxEnv where
  transaction : TxRow
  status : String
deriving DecidableEq, Repr

/-- `get_transaction_by_id`: a purely numeric identifier is first tried as
the primary key `id`; on a miss (or a non-numeric identifier) the
`transaction_id` natural-key column is tried with the original string, and
only a double miss raises. -/
def get_transaction_by_id (db : List TxRow) (transaction_id : String) :
    Except String TxEnv :=
  let second :=
    match db.find? (fun r => r.transaction_id == some transaction_id) with
    | some r => Except.ok { transaction := r, status := "success" }
    | none =>
        Except.error
          ("Failed to retrieve transaction: Transaction not found: " ++ transaction_id)
  if pyIsDigit transaction_id then
    match db.find? (fun r => r.id == (digitsToNat transaction_id : Int)) with
    | some r => Except.ok { transaction := r, status := "success" }
    | none => second
  else second

/-- Which row `get_transaction_by_id` resolves an identifier to: the
primary-key match of a numeric identifier takes precedence, then the
natural-key match (specification device). -/
def txLookup (db : List TxRow) (transaction_id : String) : Option TxRow :=
  match
    (if pyIsDigit transaction_id then
      db.find? (fun r => r.id == (digitsToNat transaction_id : Int))
    else none)
  with
  | some r => some r
  | none => db.find? (fun r => r.transaction_id == some transaction_id)

/-! ## `analytics.py`: `get_signal_statistics`, `get_portfolio_summary` -/

/-- `signal_rate = (signals / total * 100) if total > 0 else 0` in
`get_signal_statistics`. -/
def signalGenRate (total signals : Nat) : ℚ :=
  if 0 < total then (signals : ℚ) / total * 100 else 0

/-- `alert_rate = (alerts / signals * 100) if signals > 0 else 0` in
`get_signal_statistics`. -/
def alertRate (signals alerts : Nat) : ℚ :=
  if 0 < signals then (alerts : ℚ) / signals * 100 else 0

/-- The aggregate row fetched by `get_signal_statistics`, with the two rate
keys the tool adds afterwards. -/
structure SignalStatsAgg where
  total_transactions : Nat
  signals_generated : Nat
  signals_pending : Nat
  alerts_sent : Nat
  high_quality_signals : Nat
  medium_quality_signals : Nat
  low_quality_signals : Nat
  avg_signal_score : Option ℚ
  avg_final_signal_score : Option ℚ
  auto_rejected_signals : Nat
  signal_generation_rate_pct : ℚ
  alert_rate_pct : ℚ
deriving DecidableEq, Repr

/-- Response envelope of `get_signal_statistics`. -/
structure SignalStatsResult where
  statistics : SignalStatsAgg
  days : Int
  status : String
deriving DecidableEq, Repr

/-- `get_signal_statistics`: one aggregate query over the transaction-date
window, then the signal-generation and alert rates. -/
def get_signal_statistics (db : List TxRow) (days : Int) (start_date : String) :
    SignalStatsResult :=
  let matched := db.filter (fun r => optDateGe r.transaction_date start_date)
  let total := matched.length
  let signals := (matched.filter (fun r => r.signal_generated)).length
  let alerts := (matched.filter (fun r => r.alert_sent)).length
  { statistics :=
      { total_transactions := total
        signals_generated := signals
        signals_pending := (matched.filter (fun r => !r.signal_generated)).length
        alerts_sent := alerts
        high_quality_signals :=
          (matched.filter (fun r => r.signal_quality == some ("high"))).length
        medium_quality_signals :=
          (matched.filter (fun r => r.signal_quality == some ("medium"))).length
        low_quality_signals :=
          (matched.filter (fun r => r.signal_quality == some ("low"))).length
        avg_signal_score := sqlAvg (matched.filterMap (fun r => r.signal_score))
        avg_final_signal_score :=
          sqlAvg (matched.filterMap (fun r => r.final_signal_score))
        auto_rejected_signals := (matched.filter (fun r => r.auto_rejected)).length
        signal_generation_rate_pct := pyRound2 (signalGenRate total signals)
        alert_rate_pct := pyRound2 (alertRate signals alerts) }
    days := days
    status := "success" }

/-- `win_rate = (winning_count / closed_count * 100) if closed_count > 0
else 0` in `get_portfolio_summary`. -/
def portfolioWinRate (closed_count winning_count : Nat) : ℚ :=
  if 0 < closed_count then (winning_count : ℚ) / closed_count * 100 else 0

/-- The `llm_calls` aggregate row of `get_portfolio_summary`. -/
structure PortfolioCallsAgg where
  total_calls : Nat
  closed_calls : Nat
  open_calls : Nat
  total_pnl : Option ℚ
  avg_pnl : Option ℚ
  avg_price_change_pct : Option ℚ
  winning_calls : Nat
  losing_calls : Nat
deriving DecidableEq, Repr

/-- The `insider_transactions` aggregate row of `get_portfolio_summary`. -/
structure PortfolioTxAgg where
  total_transactions : Nat
  unique_tickers : Nat
  unique_insiders : Nat
  total_transaction_value : Option ℚ
  signals_generated : Nat
  alerts_sent : Nat
deriving DecidableEq, Repr

/-- Response envelope of `get_portfolio_summary`. -/
structure PortfolioResult where
  llm_calls : PortfolioCallsAgg
  insider_transactions : PortfolioTxAgg
  win_rate_pct : ℚ
  days : Int
  status : String
deriving DecidableEq, Repr

/-- `get_portfolio_summary`: one aggregate query per table over the same
day window, then the win rate over the calls aggregate. -/
def get_portfolio_summary (calls_db : List CallRow) (tx_db : List TxRow)
    (days : Int) (start_date : String) : PortfolioResult :=
  let calls_matched := calls_db.filter (fun r => optDateGe r.entry_date start_date)
  let closed_count := (calls_matched.filter (fun r => r.is_closed)).length
  let winning_count :=
    (calls_matched.filter (fun r =>
      match r.pnl_dollars with
      | some v => decide (0 < v)
      | none => false)).length
  let tx_matched := tx_db.filter (fun r => optDateGe r.transaction_date start_date)
  { llm_calls :=
      { total_calls := calls_matched.length
        closed_calls := closed_count
        open_calls := (calls_matched.filter (fun r => !r.is_closed)).length
        total_pnl := sqlSum (calls_matched.filterMap (fun r => r.pnl_dollars))
        avg_pnl := sqlAvg (calls_matched.filterMap (fun r => r.pnl_dollars))
        avg_price_change_pct :=
          sqlAvg (calls_matched.filterMap (fun r => r.price_change_pct))
        winning_calls := winning_count
        losing_calls :=
          (calls_matched.filter (fun r =>
            match r.pnl_dollars with
            | some v => decide (v < 0)
            | none => false)).length }
    insider_transactions :=
      { total_transactions := tx_matched.length
        unique_tickers := ((tx_matched.map (fun r => r.ticker)).dedup).length
        unique_insiders := ((tx_matched.map (fun r => r.insider_name)).dedup).length
        total_transaction_value :=
          sqlSum (tx_matched.filterMap (fun r => r.transaction_value))
        signals_generated := (tx_matched.filter (fun r => r.signal_generated)).length
        alerts_sent := (tx_matched.filter (fun r => r.alert_sent)).length }
    win_rate_pct := pyRound2 (portfolioWinRate closed_count winning_count)
    days := days
    status := "success" }

/-! ## `market_context.py`: the four market-context tools -/

/-- Row-level meaning of the timestamp `WHERE` clause of
`get_market_context`. -/
def mcMatches (a : MCArgs) (r : MCRow) : Bool :=
  (!strPresent a.start_timestamp || strLE (strVal a.start_timestamp) r.timestamp)
    && (!strPresent a.end_timestamp || strLE r.timestamp (strVal a.end_timestamp))

/-- `ORDER BY timestamp DESC`. -/
def mcOrderLE (r1 r2 : MCRow) : Bool :=
  strLE r2.timestamp r1.timestamp

/-- The timestamp-filtered, limit-bounded result of the database query that
`get_market_context` issues, before any in-memory batch filtering. -/
def mcBaseRows (db : List MCRow) (a : MCArgs) : List MCRow :=
  (sortBy mcOrderLE (db.filter (mcMatches a))).take (mcEffLimit a.limit).toNat

/-- The four semi-structured columns, in the order the source iterates
them. -/
def mcFields (r : MCRow) : List (Option Json) :=
  [r.sector_activity, r.ceo_cfo_buys, r.large_transactions, r.notable_patterns]

/-- `result.get(field) and batch_id in json.dumps(result[field])`: the field
must be present and truthy, and its serialization must contain the batch id. -/
def mcFieldHit (batch_id : String) : Option Json → Bool
  | some j => jsonTruthy j && strContains (jsonDumps j) batch_id
  | none => false

/-- Whether the in-memory scan marks a row as `found` (the `for field in`
loop with early `break`). -/
def mcRowFound (batch_id : String) (r : MCRow) : Bool :=
  (mcFields r).any (mcFieldHit batch_id)

/-- The `filtered_results` accumulation loop of `get_market_context`. -/
def batchFilterLoop (batch_id : String) : List MCRow → List MCRow
  | [] => []
  | r :: rs =>
      if mcRowFound batch_id r then r :: batchFilterLoop batch_id rs
      else batchFilterLoop batch_id rs

/-- The predicate the specification describes for the batch-scoped lookup:
the batch id occurs as a substring of the serialized (JSON) form of at least
one of the four semi-structured fields (no truthiness requirement). -/
def mcRowClaimMatch (batch_id : String) (r : MCRow) : Bool :=
  (mcFields r).any fun o =>
    match o with
    | some j => strContains (jsonDumps j) batch_id
    | none => false

/-- Response envelope of `get_market_context` (echoed `filters` flattened;
wall-clock `timestamp` omitted). -/
structure MCListResult where
  market_contexts : List MCRow
  count : Nat
  limit : Int
  start_timestamp : Option String
  end_timestamp : Option String
  batch_id : Option String
  status : String

/-- `get_market_context`: run the timestamp-filtered, limit-bounded query,
then — only when a batch id was supplied and the query returned rows —
retain the rows the in-memory scan marks as found. -/
def get_market_context (db : List MCRow) (a : MCArgs) : MCListResult :=
  let results := mcBaseRows db a
  let results :=
    bif strPresent a.batch_id && !results.isEmpty then
      batchFilterLoop (strVal a.batch_id) results
    else results
  { market_contexts := results
    count := results.length
    limit := mcEffLimit a.limit
    start_timestamp := a.start_timestamp
    end_timestamp := a.end_timestamp
    batch_id := a.batch_id
    status := "success" }

/-- Response envelope of `get_latest_market_context`: absence of records is
a success with a null payload and an explanatory message. -/
structure LatestMCResult where
  market_context : Option MCRow
  message : Option String
  status : String

/-- `get_latest_market_context`: `fetch_one` on the `timestamp`-descending
query; an empty store yields the success envelope with a null payload. -/
def get_latest_market_context (db : List MCRow) : LatestMCResult :=
  match (sortBy mcOrderLE db).head? with
  | none =>
      { market_context := none
        message := some ("No market context records found")
        status := "success" }
  | some r =>
      { market_context := some r
        message := none
        status := "success" }

/-- Success envelope of `get_market_context_by_id`. -/
structure MCEnv where
  market_context : MCRow
  status : String

/-- `get_market_context_by_id`: `fetch_one` on `WHERE id = %s`; a missing
row raises, and the handler wraps the message. -/
def get_market_context_by_id (db : List MCRow) (context_id : Int) :
    Except String MCEnv :=
  match db.find? (fun r => r.id == context_id) with
  | some r => Except.ok { market_context := r, status := "success" }
  | none =>
      Except.error
        ("Failed to retrieve market context: Market context not found: "
          ++ toString context_id)

/-! ## `db.py`: connection-pool lifecycle -/

/-- The pool object with its two sizing bounds. -/
structure Pool where
  minConn : Nat
  maxConn : Nat
deriving DecidableEq, Repr

/-- `init_db_pool`: returns immediately when a pool already exists,
otherwise creates one with the default bounds (the database is reachable in
this nominal model, so creation succeeds). -/
def init_db_pool (connection_pool : Option Pool) : Option Pool :=
  match connection_pool with
  | some p => some p
  | none => some { minConn := 1, maxConn := 5 }

/-- `close_db_pool`: closes all connections and clears the global handle;
a missing pool is left as-is. -/
def close_db_pool (connection_pool : Option Pool) : Option Pool :=
  match connection_pool with
  | some _ => none
  | none => none

/-- Outcome of one `get_db_connection` acquisition. -/
inductive AcqResult where
  | acquired (pool : Pool)
  | poolClosed
deriving DecidableEq, Repr

/-- `get_db_connection`: when the global handle is unset the pool is lazily
(re-)initialized before `getconn`; the model returns the post-acquisition
handle together with the outcome.  (`poolClosed` is the outcome the
specification predicts for use after shutdown; no code path produces it.) -/
def get_db_connection (connection_pool : Option Pool) : Option Pool × AcqResult :=
  let pool :=
    if connection_pool.isNone then init_db_pool connection_pool else connection_pool
  match pool with
  | some p => (some p, AcqResult.acquired p)
  | none => (none, AcqResult.poolClosed)

/-! ## Theorems -/

/-- Slicing off the last two appended elements recovers the original list
(`params[:-2]` after two `append`s). -/
theorem dropLast_two_append (ps : List α) (x y : α) :
    ((ps ++ [x, y]).dropLast).dropLast = ps := by
  have h : ps ++ [x, y] = (ps ++ [x]) ++ [y] := by simp
  rw [h, List.dropLast_concat, List.dropLast_concat]

/-- The `filtered_results` loop of `get_market_context` is a filter by the
row-level `found` check. -/
theorem batchFilterLoop_eq_filter (batch_id : String) (l : List MCRow) :
    batchFilterLoop batch_id l = l.filter (mcRowFound batch_id) := by
  induction l with
  | nil => rfl
  | cons r rs ih =>
      by_cases h : mcRowFound batch_id r
      · simp [batchFilterLoop, List.filter, h, ih]
      · simp [batchFilterLoop, List.filter, h, ih]

/-- C1: for every subset of the optional filters of the six list tools
(`get_insider_transactions`, `get_llm_calls`, `get_recent_signals`,
`get_insider_stats`, `get_call_performance`, `get_market_context`), the
generated `WHERE` clause contains exactly as many positional placeholders as
the parameter sequence built alongside it; the conditions and the parameters
are the componentwise projections of the same ordered list of filter pairs
(so the i-th parameter belongs to the i-th placeholder-bearing condition),
and each condition carries exactly as many placeholders as the parameters
appended together with it. -/
theorem spec_c1_placeholder_param_alignment (a : ITArgs) (b : LLMArgs)
    (c : MCArgs) (rs_start stats_start perf_start : String)
    (rs_quality stats_ticker stats_name perf_ticker perf_rec : Option String) :
    (countPlaceholders (itWhere a) = (itParams a).length
      ∧ itConditions a = (itPairs a).map Prod.fst
      ∧ itParams a = joinL ((itPairs a).map Prod.snd)
      ∧ ((itPairs a).all fun p => countPlaceholders p.1 == p.2.length) = true)
    ∧ (countPlaceholders (llmWhere b) = (llmParams b).length
      ∧ llmConditions b = (llmPairs b).map Prod.fst
      ∧ llmParams b = joinL ((llmPairs b).map Prod.snd)
      ∧ ((llmPairs b).all fun p => countPlaceholders p.1 == p.2.length) = true)
    ∧ (countPlaceholders (rsWhere rs_quality)
          = (rsParams rs_start rs_quality).length
      ∧ rsConditions rs_quality = (rsPairs rs_start rs_quality).map Prod.fst
      ∧ rsParams rs_start rs_quality
          = joinL ((rsPairs rs_start rs_quality).map Prod.snd)
      ∧ ((rsPairs rs_start rs_quality).all
            fun p => countPlaceholders p.1 == p.2.length) = true)
    ∧ (countPlaceholders (statsWhere stats_ticker stats_name)
          = (statsParams stats_start stats_ticker stats_name).length
      ∧ statsConditions stats_ticker stats_name
          = (statsPairs stats_start stats_ticker stats_name).map Prod.fst
      ∧ statsParams stats_start stats_ticker stats_name
          = joinL ((statsPairs stats_start stats_ticker stats_name).map Prod.snd)
      ∧ ((statsPairs stats_start stats_ticker stats_name).all
            fun p => countPlaceholders p.1 == p.2.length) = true)
    ∧ (countPlaceholders (perfWhere perf_ticker perf_rec)
          = (perfParams perf_start perf_ticker perf_rec).length
      ∧ perfConditions perf_ticker perf_rec
          = (perfPairs perf_start perf_ticker perf_rec).map Prod.fst
      ∧ perfParams perf_start perf_ticker perf_rec
          = joinL ((perfPairs perf_start perf_ticker perf_rec).map Prod.snd)
      ∧ ((perfPairs perf_start perf_ticker perf_rec).all
            fun p => countPlaceholders p.1 == p.2.length) = true)
    ∧ (countPlaceholders (mcWhere c) = (mcParams c).length
      ∧ mcConditions c = (mcPairs c).map Prod.fst
      ∧ mcParams c = joinL ((mcPairs c).map Prod.snd)
      ∧ ((mcPairs c).all fun p => countPlaceholders p.1 == p.2.length) = true) :=
  ⟨itAlign a, llmAlign b, rsAlign rs_start rs_quality,
    statsAlign stats_start stats_ticker stats_name,
    perfAlign perf_start perf_ticker perf_rec, mcAlign c⟩

/-- C2: in the paginated tools the count query receives exactly the filter
parameters — slicing `params[:-2]` after the `limit`/`offset` appends
recovers precisely the filter parameter sequence — and consequently the
returned `total` is invariant to the `limit` and `offset` arguments. -/
theorem spec_c2_count_params_exclude_pagination (a : ITArgs) (b : LLMArgs) :
    itCountParams a = itParams a
    ∧ llmCountParams b = llmParams b
    ∧ (∀ (db : List TxRow) (l₁ o₁ l₂ o₂ : Int) (r₁ r₂ : ITResult),
        get_insider_transactions db { a with limit := l₁, offset := o₁ }
            = Except.ok r₁ →
        get_insider_transactions db { a with limit := l₂, offset := o₂ }
            = Except.ok r₂ →
        r₁.total = r₂.total)
    ∧ (∀ (db : List CallRow) (l₁ o₁ l₂ o₂ : Int) (r₁ r₂ : LLMResult),
        get_llm_calls db { b with limit := l₁, offset := o₁ } = Except.ok r₁ →
        get_llm_calls db { b with limit := l₂, offset := o₂ } = Except.ok r₂ →
        r₁.total = r₂.total) := by
  refine ⟨dropLast_two_append _ _ _, dropLast_two_append _ _ _, ?_, ?_⟩
  · intro db l₁ o₁ l₂ o₂ r₁ r₂ h₁ h₂
    simp only [get_insider_transactions] at h₁ h₂
    split at h₁
    · exact absurd h₁ (by simp)
    · split at h₂
      · exact absurd h₂ (by simp)
      · cases h₁
        cases h₂
        rfl
  · intro db l₁ o₁ l₂ o₂ r₁ r₂ h₁ h₂
    simp only [get_llm_calls] at h₁ h₂
    split at h₁
    · exact absurd h₁ (by simp)
    · split at h₂
      · exact absurd h₂ (by simp)
      · cases h₁
        cases h₂
        rfl

/-- The store of the `get_call_performance` end-to-end example: within the
365-day window there are exactly three closed AAPL calls with P&L 100, −50
and 25 and one open AAPL call; a closed call for another ticker and a closed
AAPL call before the window cutoff are present as distractors. -/
def perfExampleDb : List CallRow :=
  [ { id := 1, ticker := "AAPL", is_closed := true,
      entry_date := some ("2025-06-01"), pnl_dollars := some 100 },
    { id := 2, ticker := "AAPL", is_closed := true,
      entry_date := some ("2025-06-02"), pnl_dollars := some (-50) },
    { id := 3, ticker := "AAPL", is_closed := true,
      entry_date := some ("2025-06-03"), pnl_dollars := some 25 },
    { id := 4, ticker := "AAPL", is_closed := false,
      entry_date := some ("2025-06-04") },
    { id := 5, ticker := "MSFT", is_closed := true,
      entry_date := some ("2025-06-05"), pnl_dollars := some 7 },
    { id := 6, ticker := "AAPL", is_closed := true,
      entry_date := some ("2024-01-15"), pnl_dollars := some 999 } ]

/-- C3: on a store whose queried window holds exactly three closed AAPL
calls with P&L 100, −50, 25 plus one open call,
`get_call_performance(days=365, ticker="AAPL")` reports
`closed_calls=3, winning_calls=2, losing_calls=1, open_calls=1` and
`win_rate_pct = 66.67` (winning closed calls over all closed calls, times
100, rounded to two decimals). -/
theorem spec_c3_call_performance_example :
    get_call_performance perfExampleDb 365 ("2025-01-01") (some ("AAPL")) none
      = { performance :=
            { total_calls := 4
              closed_calls := 3
              open_calls := 1
              avg_price_change_pct := none
              total_pnl := some 75
              avg_pnl := some 25
              avg_holding_days := none
              winning_calls := 2
              losing_calls := 1
              pending_calls := 1
              win_rate_pct := 6667 / 100 }
          days := 365
          filter_ticker := some ("AAPL")
          filter_recommendation := none
          status := "success" } := by
  have hm : perfExampleDb.filter (perfMatches ("2025-01-01") (some ("AAPL")) none)
      = [ { id := 1, ticker := "AAPL", is_closed := true,
            entry_date := some ("2025-06-01"), pnl_dollars := some 100 },
          { id := 2, ticker := "AAPL", is_closed := true,
            entry_date := some ("2025-06-02"), pnl_dollars := some (-50) },
          { id := 3, ticker := "AAPL", is_closed := true,
            entry_date := some ("2025-06-03"), pnl_dollars := some 25 },
          { id := 4, ticker := "AAPL", is_closed := false,
            entry_date := some ("2025-06-04") } ] := by decide
  simp only [get_call_performance, hm]
  norm_num [sqlSum, sqlAvg, List.filterMap, List.filter, pyRound2, callWinRate,
    round_eq, Int.floor_eq_iff]

/-- C4 counterexample: after `close_db_pool`, the very next acquisition does
not fail with a pool-closed error — it succeeds (the cleared global handle
makes `get_db_connection` lazily re-initialize the pool). -/
theorem spec_c4_counterexample :
    (get_db_connection (close_db_pool (some { minConn := 1, maxConn := 5 }))).2
        = AcqResult.acquired { minConn := 1, maxConn := 5 }
      ∧ AcqResult.acquired { minConn := 1, maxConn := 5 } ≠ AcqResult.poolClosed := by
  exact ⟨rfl, by decide⟩

/-- C4 amended: after `close_db_pool` the pool handle is cleared, so every
subsequent acquisition lazily re-initializes a fresh default-sized pool and
succeeds (when initialization succeeds, as in this nominal model) instead of
failing with a pool-closed error. -/
theorem spec_c4_amended (s : Option Pool) :
    (get_db_connection (close_db_pool s)).2
        = AcqResult.acquired { minConn := 1, maxConn := 5 }
      ∧ (get_db_connection (close_db_pool s)).1
          = some { minConn := 1, maxConn := 5 } := by
  cases s <;> exact ⟨rfl, rfl⟩

/-- C5: every out-of-range integer `limit` (below 1 or above the tool's
cap — 1000 for the transaction/call list tools, 500 for recent signals and
market context, 50 for top performers) is silently replaced by the tool's
default (100, 50 and 10 respectively); in particular
`get_insider_transactions` with `limit=2000` behaves exactly as with
`limit=100`. -/
theorem spec_c5_limit_clamp (l : Int) :
    ((l < 1 ∨ 1000 < l) →
      itEffLimit l = 100 ∧ llmEffLimit l = 100 ∧ openCallsEffLimit l = 100
        ∧ unprocEffLimit l = 100)
    ∧ ((l < 1 ∨ 500 < l) → rsEffLimit l = 50 ∧ mcEffLimit l = 50)
    ∧ ((l < 1 ∨ 50 < l) → tpEffLimit l = 10)
    ∧ (∀ (db : List TxRow) (a : ITArgs),
        get_insider_transactions db { a with limit := 2000 }
          = get_insider_transactions db { a with limit := 100 }) := by
  refine ⟨fun h => ?_, fun h => ?_, fun h => ?_, fun db a => rfl⟩
  · exact ⟨if_pos h, if_pos h, if_pos h, if_pos h⟩
  · exact ⟨if_pos h, if_pos h⟩
  · exact if_pos h

/-- Witness for C5 at the concrete out-of-range limit 2000. -/
theorem spec_c5_witness :
    ((2000 : Int) < 1 ∨ (1000 : Int) < 2000)
      ∧ itEffLimit 2000 = 100
      ∧ rsEffLimit 2000 = 50
      ∧ tpEffLimit 2000 = 10
      ∧ get_insider_transactions [] { limit := 2000 }
          = get_insider_transactions [] { limit := 100 } :=
  ⟨by decide,
    ((spec_c5_limit_clamp 2000).1 (by decide)).1,
    ((spec_c5_limit_clamp 2000).2.1 (by decide)).1,
    (spec_c5_limit_clamp 2000).2.2.1 (by decide),
    (spec_c5_limit_clamp 2000).2.2.2 [] { limit := 2000 }⟩

/-- Witness for C2 at a concrete store and two limit/offset pairs. -/
theorem spec_c2_witness :
    get_insider_transactions ([] : List TxRow) { limit := 7, offset := 0 }
        = Except.ok { transactions := [], count := 0, total := 0, limit := 7,
                      offset := 0, status := "success" }
      ∧ get_insider_transactions ([] : List TxRow) { limit := 3, offset := 2 }
        = Except.ok { transactions := [], count := 0, total := 0, limit := 3,
                      offset := 2, status := "success" }
      ∧ ({ transactions := [], count := 0, total := 0, limit := 7, offset := 0,
            status := "success" } : ITResult).total
          = ({ transactions := [], count := 0, total := 0, limit := 3, offset := 2,
                status := "success" } : ITResult).total :=
  ⟨rfl, rfl,
    (spec_c2_count_params_exclude_pagination {} {}).2.2.1 [] 7 0 3 2 _ _ rfl rfl⟩

/-- C6: every derived-rate computation (win rate in `get_call_performance`
and `get_portfolio_summary`, signal-generation rate and alert rate in
`get_signal_statistics`) yields 0 — a number, not an error and not null —
whenever its denominator is zero (including a null count coalesced to 0 by
the source's `or 0`), for every numerator; with a positive denominator it
yields the percentage rounded to two decimals. -/
theorem spec_c6_zero_denominator_rates :
    (∀ w, pyRound2 (callWinRate 0 w) = 0)
      ∧ (∀ w, pyRound2 (portfolioWinRate 0 w) = 0)
      ∧ (∀ s, pyRound2 (signalGenRate 0 s) = 0)
      ∧ (∀ al, pyRound2 (alertRate 0 al) = 0)
      ∧ (∀ w, pyRound2 (callWinRate (orZero none) w) = 0)
      ∧ (∀ c w, 0 < c →
          pyRound2 (callWinRate c w) = pyRound2 ((w : ℚ) / (c : ℚ) * 100))
      ∧ (∀ c w, 0 < c →
          pyRound2 (portfolioWinRate c w) = pyRound2 ((w : ℚ) / (c : ℚ) * 100))
      ∧ (∀ t s, 0 < t →
          pyRound2 (signalGenRate t s) = pyRound2 ((s : ℚ) / (t : ℚ) * 100))
      ∧ (∀ s al, 0 < s →
          pyRound2 (alertRate s al) = pyRound2 ((al : ℚ) / (s : ℚ) * 100)) := by
  refine ⟨fun w => ?_, fun w => ?_, fun s => ?_, fun al => ?_, fun w => ?_,
    fun c w h => ?_, fun c w h => ?_, fun t s h => ?_, fun s al h => ?_⟩ <;>
    simp [callWinRate, portfolioWinRate, signalGenRate, alertRate, orZero,
      pyRound2, *]

/-- Witness for C6 at concrete positive denominators. -/
theorem spec_c6_witness :
    (0 < 3 ∧ pyRound2 (callWinRate 3 2) = pyRound2 ((2 : ℚ) / (3 : ℚ) * 100))
      ∧ (0 < 5 ∧ pyRound2 (alertRate 5 1) = pyRound2 ((1 : ℚ) / (5 : ℚ) * 100)) :=
  ⟨⟨by norm_num, spec_c6_zero_denominator_rates.2.2.2.2.2.1 3 2 (by norm_num)⟩,
    ⟨by norm_num, spec_c6_zero_denominator_rates.2.2.2.2.2.2.2.2 5 1 (by norm_num)⟩⟩

/-- C7: each identifier-lookup tool returns exactly the matching record in a
success envelope when the lookup finds one, and fails with its not-found
error when no record matches (for `get_transaction_by_id`, "matches" is the
resolution `txLookup`: primary-key match of a numeric identifier first, then
the natural-key match). -/
theorem spec_c7_identifier_lookups :
    (∀ (db : List CallRow) (i : Int) (r : CallRow),
        db.find? (fun c => c.id == i) = some r →
        get_call_by_id db i = Except.ok { call := r, status := "success" })
      ∧ (∀ (db : List CallRow) (i : Int),
          db.find? (fun c => c.id == i) = none →
          get_call_by_id db i
            = Except.error ("Failed to retrieve call: Call not found: " ++ toString i))
      ∧ (∀ (db : List MCRow) (i : Int) (r : MCRow),
          db.find? (fun c => c.id == i) = some r →
          get_market_context_by_id db i
            = Except.ok { market_context := r, status := "success" })
      ∧ (∀ (db : List MCRow) (i : Int),
          db.find? (fun c => c.id == i) = none →
          get_market_context_by_id db i
            = Except.error
                ("Failed to retrieve market context: Market context not found: "
                  ++ toString i))
      ∧ (∀ (db : List TxRow) (s : String) (r : TxRow),
          txLookup db s = some r →
          get_transaction_by_id db s
            = Except.ok { transaction := r, status := "success" })
      ∧ (∀ (db : List TxRow) (s : String),
          txLookup db s = none →
          get_transaction_by_id db s
            = Except.error
                ("Failed to retrieve transaction: Transaction not found: " ++ s)) := by
  refine ⟨?_, ?_, ?_, ?_, ?_, ?_⟩
  · intro db i r h
    simp only [get_call_by_id, h]
  · intro db i h
    simp only [get_call_by_id, h]
  · intro db i r h
    simp only [get_market_context_by_id, h]
  · intro db i h
    simp only [get_market_context_by_id, h]
  · intro db s r h
    simp only [txLookup] at h
    simp only [get_transaction_by_id]
    cases hd : pyIsDigit s
    · simp [hd] at h
      simp [hd, h]
    · simp only [hd, if_true] at h ⊢
      cases hf : db.find? (fun row => row.id == (digitsToNat s : Int))
      · simp [hf] at h
        simp [hf, h]
      · simp [hf] at h
        simp [hf, h]
  · intro db s h
    simp only [txLookup] at h
    simp only [get_transaction_by_id]
    cases hd : pyIsDigit s
    · simp [hd] at h
      simp only [hd, Bool.false_eq_true, if_false]
      have h2 : List.find? (fun r => r.transaction_id == some s) db = none := by
        rw [List.find?_eq_none]
        intro x hx
        simpa using h x hx
      rw [h2]
    · simp only [hd, if_true] at h ⊢
      cases hf : db.find? (fun row => row.id == (digitsToNat s : Int))
      · simp [hf] at h
        simp only [hd, if_true]
        have h2 : List.find? (fun r => r.transaction_id == some s) db = none := by
          rw [List.find?_eq_none]
          intro x hx
          simpa using h x hx
        rw [h2]
      · simp [hf] at h

/-- Concrete call row for the C7 witness. -/
def c7CallRow : CallRow := { id := 7, ticker := "AAPL" }

/-- Concrete transaction row for the C7 witness. -/
def c7TxRow : TxRow := { id := 1, transaction_id := some ("0001234") }

/-- Witness for C7: a present call id succeeds with that record, a missing
context id errors, and a numeric external transaction id resolves through
the fallback. -/
theorem spec_c7_witness :
    ([c7CallRow].find? (fun c => c.id == 7) = some c7CallRow)
      ∧ get_call_by_id [c7CallRow] 7
          = Except.ok { call := c7CallRow, status := "success" }
      ∧ (([] : List MCRow).find? (fun c => c.id == 3) = none)
      ∧ get_market_context_by_id ([] : List MCRow) 3
          = Except.error
              ("Failed to retrieve market context: Market context not found: "
                ++ toString (3 : Int))
      ∧ txLookup [c7TxRow] "0001234" = some c7TxRow
      ∧ get_transaction_by_id [c7TxRow] "0001234"
          = Except.ok { transaction := c7TxRow, status := "success" } :=
  ⟨rfl, spec_c7_identifier_lookups.1 [c7CallRow] 7 c7CallRow rfl, rfl,
    spec_c7_identifier_lookups.2.2.2.1 [] 3 rfl, rfl,
    spec_c7_identifier_lookups.2.2.2.2.1 [c7TxRow] "0001234" c7TxRow rfl⟩

/-- Market-context row for the C8 counterexample: its only present
semi-structured field is the empty document, which serializes to a
brace pair but is falsy. -/
def mcRowC8 : MCRow :=
  { id := 1, timestamp := "2025-01-01T00:00:00",
    sector_activity := some (Json.obj []) }

/-- C8 counterexample: with batch id `"{"`, the row's serialized
`sector_activity` (`"{}"`) contains the batch id as a substring, so the
claim's predicate selects the row out of the base query result — yet the
tool returns the empty record set, because the source also requires the
field to be truthy and the empty document is falsy. -/
theorem spec_c8_counterexample :
    (get_market_context [mcRowC8] { batch_id := some ("\x7b") }).market_contexts = []
      ∧ mcBaseRows [mcRowC8] { batch_id := some ("\x7b") } = [mcRowC8]
      ∧ (mcBaseRows [mcRowC8] { batch_id := some ("\x7b") }).filter
            (mcRowClaimMatch ("\x7b")) = [mcRowC8] :=
  ⟨rfl, rfl, rfl⟩

/-- C8 amended: for every call with a non-empty `batch_id`, the returned
record set contains exactly those rows of the timestamp-filtered,
limit-bounded query result in which at least one of the four
semi-structured fields is truthy (present and non-empty) and the `batch_id`
occurs as a substring of that field's JSON serialization; the filtering is
performed in memory after the database query. -/
theorem spec_c8_amended (db : List MCRow) (a : MCArgs) (bid : String)
    (hb : a.batch_id = some bid) (hne : bid ≠ "") :
    (get_market_context db a).market_contexts
      = (mcBaseRows db a).filter (mcRowFound bid) := by
  have hp : strPresent a.batch_id = true := by
    rw [hb]
    simpa [strPresent] using hne
  have hv : strVal a.batch_id = bid := by rw [hb]; rfl
  simp only [get_market_context, hp, hv, Bool.true_and]
  cases he : (mcBaseRows db a).isEmpty
  · simp [batchFilterLoop_eq_filter]
  · rw [List.isEmpty_iff] at he
    simp [he]

/-- Witness for C8: with batch id `"B42"` embedded in one truthy field of
one row and absent from the other row, exactly the first row survives. -/
theorem spec_c8_witness :
    ({ start_timestamp := none, end_timestamp := none, batch_id := some ("B42"),
        limit := 50 } : MCArgs).batch_id = some ("B42")
      ∧ ("B42" : String) ≠ ""
      ∧ (get_market_context
            [ { id := 1, timestamp := "2025-01-02T00:00:00",
                sector_activity := some (Json.str "batch B42 summary") },
              { id := 2, timestamp := "2025-01-01T00:00:00",
                sector_activity := some (Json.str "other") } ]
            { start_timestamp := none, end_timestamp := none,
              batch_id := some ("B42"), limit := 50 }).market_contexts
          = (mcBaseRows
              [ { id := 1, timestamp := "2025-01-02T00:00:00",
                  sector_activity := some (Json.str "batch B42 summary") },
                { id := 2, timestamp := "2025-01-01T00:00:00",
                  sector_activity := some (Json.str "other") } ]
              { start_timestamp := none, end_timestamp := none,
                batch_id := some ("B42"), limit := 50 }).filter
              (mcRowFound ("B42")) :=
  ⟨rfl, by decide,
    spec_c8_amended
      [ { id := 1, timestamp := "2025-01-02T00:00:00",
          sector_activity := some (Json.str "batch B42 summary") },
        { id := 2, timestamp := "2025-01-01T00:00:00",
          sector_activity := some (Json.str "other") } ]
      { start_timestamp := none, end_timestamp := none,
        batch_id := some ("B42"), limit := 50 }
      "B42" rfl (by decide)⟩

/-- C9: for a purely numeric identifier string, `get_transaction_by_id`
resolves the primary key first, falls back to the `transaction_id`
natural-key column with the original string when no row carries that primary
key, and fails only when both lookups miss. -/
theorem spec_c9_numeric_id_fallback (db : List TxRow) (s : String)
    (hdig : pyIsDigit s = true) :
    (∀ r, db.find? (fun row => row.id == (digitsToNat s : Int)) = some r →
        get_transaction_by_id db s
          = Except.ok { transaction := r, status := "success" })
      ∧ (db.find? (fun row => row.id == (digitsToNat s : Int)) = none →
          ∀ r, db.find? (fun row => row.transaction_id == some s) = some r →
            get_transaction_by_id db s
              = Except.ok { transaction := r, status := "success" })
      ∧ (db.find? (fun row => row.id == (digitsToNat s : Int)) = none →
          db.find? (fun row => row.transaction_id == some s) = none →
            get_transaction_by_id db s
              = Except.error
                  ("Failed to retrieve transaction: Transaction not found: " ++ s)) := by
  refine ⟨?_, ?_, ?_⟩
  · intro r h
    simp only [get_transaction_by_id, hdig, if_true, h]
  · intro h r h2
    simp only [get_transaction_by_id, hdig, if_true, h, h2]
  · intro h h2
    simp only [get_transaction_by_id, hdig, if_true, h, h2]

/-- Concrete transaction row for the C9 witness: its external
`transaction_id` is numeric while its primary key differs. -/
def c9TxRow : TxRow := { id := 2, transaction_id := some ("12345") }

/-- Witness for C9: the numeric external id misses the primary key and is
found through the natural-key fallback. -/
theorem spec_c9_witness :
    pyIsDigit ("12345") = true
      ∧ [c9TxRow].find? (fun row => row.id == (digitsToNat ("12345") : Int)) = none
      ∧ [c9TxRow].find? (fun row => row.transaction_id == some ("12345"))
          = some c9TxRow
      ∧ get_transaction_by_id [c9TxRow] "12345"
          = Except.ok { transaction := c9TxRow, status := "success" } :=
  ⟨rfl, rfl, rfl,
    (spec_c9_numeric_id_fallback [c9TxRow] "12345" rfl).2.1 rfl c9TxRow rfl⟩

/-- C10: on an empty `market_context` store, `get_latest_market_context`
does not raise: it returns a success envelope with a null payload and an
explanatory message — unlike the identifier lookup on the same store, which
treats absence as an error. -/
theorem spec_c10_latest_empty_store :
    get_latest_market_context ([] : List MCRow)
        = { market_context := none,
            message := some ("No market context records found"),
            status := "success" }
      ∧ get_market_context_by_id ([] : List MCRow) 1
          = Except.error
              ("Failed to retrieve market context: Market context not found: "
                ++ toString (1 : Int)) :=
  ⟨rfl, rfl⟩
